import Mathlib

/-!
Shallow embedding of the Groth16 verification precompile from
privacy-ethereum/privacy-precompiles (Go), together with proofs about it.

Bytes are modelled as `Nat` values (real inputs carry values `< 256`; no
statement below depends on larger entries).  Go `int` values (lengths,
offsets, public-input counts) are modelled as `Int` with Go's
truncated division (`Int.tdiv`); Go `uint64` arithmetic is modelled as
`Nat` arithmetic reduced `% 2 ^ 64`, and the Go `int -> uint64`
conversion as `Int.emod _ (2 ^ 64)`.  A Go function returning
`(value, error)` is modelled with `Except`; a Go call that may panic is
modelled with `StepResult`, whose `fault` constructor stands for a
runtime panic, and the `defer`/`recover` block of `Run` is the
top-level handler turning `fault` into the recovered error value.
-/

namespace PrivacyPrecompiles

/-- BN254 base field modulus, the modulus used by gnark's
`fp.Element.SetBytes` reduction. -/
def bn254FieldModulus : Nat :=
  21888242871839275222246405745257275088696311157297823662689037894645226208583

/-- `utils.SafeSlice`: bounds-checked slicing; `none` models `(nil, false)`. -/
def SafeSlice (data : List Nat) (start stop : Int) : Option (List Nat) :=
  if start < 0 ∨ stop < 0 ∨ start > stop ∨ stop > (data.length : Int) then
    none
  else
    some ((data.drop start.toNat).take (stop - start).toNat)

/-- Big-endian interpretation of a byte string as an unsigned integer
(`new(big.Int).SetBytes`). -/
def bytesToNat (bs : List Nat) : Nat :=
  bs.foldl (fun acc b => acc * 256 + b) 0

/-- gnark `fp.Element.SetBytes`: big-endian bytes, reduced mod the BN254
base field modulus. -/
def setBytes (bs : List Nat) : Nat :=
  bytesToNat bs % bn254FieldModulus

/-- gnark `fp.Element.Bytes`: the canonical 32-byte big-endian encoding. -/
def beBytes32 (x : Nat) : List Nat :=
  (List.range 32).map (fun i => x / 256 ^ (31 - i) % 256)

/-- `bn254.G1Affine`: field elements are held as reduced `Nat` values. -/
structure G1Affine where
  x : Nat
  y : Nat
  deriving DecidableEq

/-- `bn254.G2Affine`: each coordinate is an `E2` element with components
`A0` and `A1`. -/
structure G2Affine where
  xA1 : Nat
  xA0 : Nat
  yA1 : Nat
  yA0 : Nat
  deriving DecidableEq

/-- `groth16bn254.Proof`: the three proof points. -/
structure ProofBN254 where
  ar : G1Affine
  bs : G2Affine
  krs : G1Affine
  deriving DecidableEq

/-- `groth16bn254.VerifyingKey`: the fixed points plus the IC slice
`G1.K`.  The pairing precomputation held by the gnark structure is
derived data and is not part of the embedding. -/
structure VerifyingKeyBN254 where
  alpha : G1Affine
  beta : G2Affine
  gamma : G2Affine
  delta : G2Affine
  k : List G1Affine
  deriving DecidableEq

/-- The error values the precompile and its parsers can surface. -/
inductive GoErr where
  /-- `ErrorGroth16VerifyUnsupportedCurve` -/
  | unsupportedCurve
  /-- `ErrorPanicGroth16Verify`: a recovered runtime panic. -/
  | internalFault
  /-- `ErrorGroth16VerifyInvalidInputLength` -/
  | invalidInputLength
  /-- `ErrorGroth16VerifyInvalidProof` -/
  | invalidProof
  /-- `ErrorGroth16VerifyInvalidVerifyingKey` -/
  | invalidVerifyingKey
  /-- `ErrorGroth16VerifyInvalidPublicWitness` -/
  | invalidPublicWitness
  /-- `common.ErrorInvalidG1` -/
  | invalidG1
  /-- `common.ErrorInvalidG2` -/
  | invalidG2
  /-- The `errors.New("invalid slice")` value of `ParsePublicWitness`. -/
  | invalidSlice
  deriving DecidableEq

/-- Outcome of one Go call that may return a value, return an error, or
panic (`fault`). -/
inductive StepResult (A : Type) where
  | ok (a : A)
  | err (e : GoErr)
  | fault
  deriving DecidableEq

/-- BN254 codec constants (`verifier/groth16/bn254/params.go`). -/
def BN254Groth16ProofSize : Int := 256

/-- Fixed verifying-key size: Alpha, Beta, Gamma, Delta. -/
def BN254Groth16VerifyVerifyingKeySize : Int := 448

/-- Serialized G1 affine point size. -/
def BN254Groth16G1Size : Int := 64

/-- Serialized G2 affine point size. -/
def BN254Groth16G2Size : Int := 128

/-- Size of one serialized public input. -/
def BN254Groth16SinglePublicInputSize : Int := 32

/-- Size of one base field element. -/
def BN254Groth16FieldSize : Int := 32

/-- Base gas for BN254 Groth16 verification. -/
def BN254Groth16VerifyBaseGas : Int := 220000

/-- `babyjubjubAdd.BabyJubJubCurveAddGas` (uint64). -/
def BabyJubJubCurveAddGas : Nat := 12300

/-- `babyjubjubMul.BabyJubJubCurveMulGas` (uint64). -/
def BabyJubJubCurveMulGas : Nat := 14400

/-- `Groth16MaxPublicInputs`. -/
def Groth16MaxPublicInputs : Int := 64

/-- `ParseG1` (`verifier/groth16/bn254`): two bounds-checked 32-byte
reads into X and Y; on success the returned offset advances by
`BN254Groth16G1Size`, on failure the input offset is returned together
with `common.ErrorInvalidG1`. -/
def ParseG1 (data : List Nat) (offset : Int) :
    Except (GoErr × Int) (G1Affine × Int) :=
  match SafeSlice data offset (offset + BN254Groth16FieldSize) with
  | none => .error (.invalidG1, offset)
  | some sx =>
    match SafeSlice data (offset + BN254Groth16FieldSize)
        (offset + 2 * BN254Groth16FieldSize) with
    | none => .error (.invalidG1, offset)
    | some sy => .ok ({ x := setBytes sx, y := setBytes sy }, offset + BN254Groth16G1Size)

/-- `ParseG2` (`verifier/groth16/bn254`): four bounds-checked 32-byte
reads in the order X.A1, X.A0, Y.A1, Y.A0; each read is validated
independently and the first failing read returns the input offset
together with `common.ErrorInvalidG2`. -/
def ParseG2 (data : List Nat) (offset : Int) :
    Except (GoErr × Int) (G2Affine × Int) :=
  match SafeSlice data offset (offset + BN254Groth16FieldSize) with
  | none => .error (.invalidG2, offset)
  | some s1 =>
    match SafeSlice data (offset + BN254Groth16FieldSize)
        (offset + 2 * BN254Groth16FieldSize) with
    | none => .error (.invalidG2, offset)
    | some s2 =>
      match SafeSlice data (offset + 2 * BN254Groth16FieldSize)
          (offset + 3 * BN254Groth16FieldSize) with
      | none => .error (.invalidG2, offset)
      | some s3 =>
        match SafeSlice data (offset + 3 * BN254Groth16FieldSize)
            (offset + BN254Groth16G2Size) with
        | none => .error (.invalidG2, offset)
        | some s4 =>
          .ok ({ xA1 := setBytes s1, xA0 := setBytes s2,
                 yA1 := setBytes s3, yA0 := setBytes s4 },
               offset + BN254Groth16G2Size)

/-- `SolidityBN254Parser.ParseProof`: Ar (G1), Bs (G2), Krs (G1) from
offset 0; the first parse error is propagated. -/
def ParseProof (data : List Nat) : Except GoErr ProofBN254 :=
  match ParseG1 data 0 with
  | .error (e, _) => .error e
  | .ok (ar, o1) =>
    match ParseG2 data o1 with
    | .error (e, _) => .error e
    | .ok (bs, o2) =>
      match ParseG1 data o2 with
      | .error (e, _) => .error e
      | .ok (krs, _) => .ok { ar := ar, bs := bs, krs := krs }

/-- The IC loop of `ParseVerifyingKey`: `count` sequential `ParseG1`
reads threading the offset. -/
def parseKPoints (data : List Nat) : Nat → Int → Except (GoErr × Int) (List G1Affine × Int)
  | 0, offset => .ok ([], offset)
  | count + 1, offset =>
    match ParseG1 data offset with
    | .error e => .error e
    | .ok (p, o1) =>
      match parseKPoints data count o1 with
      | .error e => .error e
      | .ok (ps, o2) => .ok (p :: ps, o2)

/-- `SolidityBN254Parser.ParseVerifyingKey`: Alpha (G1), Beta (G2),
Gamma (G2), Delta (G2), then `numberOfPublicInputs + 1` IC points.
The final `vk.Precompute()` call only derives cached pairing data and
— per the source's own comment — cannot fail through this parser, so it
is modelled as the identity on the parsed key.  (Go's
`make([]G1Affine, n+1)` panics for negative `n`; every caller passes
`n ≥ 0`, and the model takes `(n + 1).toNat` points.) -/
def ParseVerifyingKey (data : List Nat) (numberOfPublicInputs : Int) :
    Except GoErr VerifyingKeyBN254 :=
  match ParseG1 data 0 with
  | .error (e, _) => .error e
  | .ok (alpha, o1) =>
    match ParseG2 data o1 with
    | .error (e, _) => .error e
    | .ok (beta, o2) =>
      match ParseG2 data o2 with
      | .error (e, _) => .error e
      | .ok (gamma, o3) =>
        match ParseG2 data o3 with
        | .error (e, _) => .error e
        | .ok (delta, o4) =>
          match parseKPoints data (numberOfPublicInputs + 1).toNat o4 with
          | .error (e, _) => .error e
          | .ok (ks, _) =>
            .ok { alpha := alpha, beta := beta, gamma := gamma,
                  delta := delta, k := ks }

/-- The read loop of `ParsePublicWitness`: `count` bounds-checked
32-byte reads, each becoming a raw (unreduced) big-endian integer. -/
def parseWitnessFields (data : List Nat) : Nat → Int → Except GoErr (List Nat)
  | 0, _ => .ok []
  | count + 1, offset =>
    match SafeSlice data offset (offset + BN254Groth16FieldSize) with
    | none => .error .invalidSlice
    | some s =>
      match parseWitnessFields data count (offset + BN254Groth16FieldSize) with
      | .error e => .error e
      | .ok rest => .ok (bytesToNat s :: rest)

/-- `SolidityBN254Parser.ParsePublicWitness`: reads exactly
`numberOfPublicInputs` field elements from offset 0; the final
`publicWitness.Fill` call — per the source's own comment — cannot fail,
so the witness is modelled as the list of parsed integers.  (Go's
`for range n` performs zero iterations for `n ≤ 0`, matching
`(n).toNat`.) -/
def ParsePublicWitness (data : List Nat) (numberOfPublicInputs : Int) :
    Except GoErr (List Nat) :=
  parseWitnessFields data numberOfPublicInputs.toNat 0

/-- `serializeG1` inside `SerializeVerifyingKey`: X then Y. -/
def serializeG1 (p : G1Affine) : List Nat :=
  beBytes32 p.x ++ beBytes32 p.y

/-- `serializeG2` inside `SerializeVerifyingKey`, with the source's
append order: x1, x0, then y0, then y1. -/
def serializeG2VK (p : G2Affine) : List Nat :=
  beBytes32 p.xA1 ++ beBytes32 p.xA0 ++ beBytes32 p.yA0 ++ beBytes32 p.yA1

/-- `SerializeVerifyingKey` (`verifier/groth16/bn254`): Alpha, Beta,
Gamma, Delta, then the IC points. -/
def SerializeVerifyingKey (vk : VerifyingKeyBN254) : List Nat :=
  serializeG1 vk.alpha ++ serializeG2VK vk.beta ++ serializeG2VK vk.gamma ++
    serializeG2VK vk.delta ++ (vk.k.map serializeG1).flatten

/-- The `ecc.ID` curve identifiers relevant here. -/
inductive EccID where
  | bn254
  | bls12_377
  | bls12_381
  | bls24_315
  | bw6_761
  deriving DecidableEq

/-- `Groth16CurveParams`. -/
structure Groth16CurveParams where
  proofSize : Int
  vkSize : Int
  g1Size : Int
  singlePublicInputSize : Int
  baseGas : Int
  deriving DecidableEq

/-- The `Groth16Params` registry: only BN254 is registered. -/
def Groth16Params : EccID → Option Groth16CurveParams
  | .bn254 =>
    some { proofSize := BN254Groth16ProofSize,
           vkSize := BN254Groth16VerifyVerifyingKeySize,
           g1Size := BN254Groth16G1Size,
           singlePublicInputSize := BN254Groth16SinglePublicInputSize,
           baseGas := BN254Groth16VerifyBaseGas }
  | _ => none

/-- `Groth16Verify.calculateNumberOfPublicInputs`: Go truncated integer
division, no validation. -/
def calculateNumberOfPublicInputs (input : List Nat) (params : Groth16CurveParams) : Int :=
  Int.tdiv ((input.length : Int) - params.proofSize - params.vkSize - params.g1Size)
    (params.g1Size + params.singlePublicInputSize)

/-- Go's `int -> uint64` conversion. -/
def intToUInt64 (n : Int) : Nat :=
  (n.emod (2 ^ 64)).toNat

/-- `Groth16Verify.RequiredGas`: 0 for an unregistered curve, otherwise
`uint64(baseGas) + (addGas + mulGas) * uint64(n)` in wrapping uint64
arithmetic. -/
def RequiredGas (curveID : EccID) (input : List Nat) : Nat :=
  match Groth16Params curveID with
  | none => 0
  | some params =>
    let numberOfPublicInputs := calculateNumberOfPublicInputs input params
    let operationsCost := (BabyJubJubCurveAddGas + BabyJubJubCurveMulGas) % 2 ^ 64
    (intToUInt64 params.baseGas + operationsCost * intToUInt64 numberOfPublicInputs) % 2 ^ 64

/-- A `SolidityGroth16ByteParser` implementation together with the
pairing engine, each call possibly returning a value, an error, or a
panic. -/
structure Groth16ParserModel where
  parseProof : List Nat → StepResult ProofBN254
  parseVerifyingKey : List Nat → Int → StepResult VerifyingKeyBN254
  parsePublicWitness : List Nat → Int → StepResult (List Nat)
  verify : ProofBN254 → VerifyingKeyBN254 → List Nat → StepResult Unit

/-- The body of `Groth16Verify.Run` (everything inside the
`defer`/`recover` guard), for an arbitrary parser/engine model.  The
`_` on each `SafeSlice` ok-flag is modelled by `Option.getD _ []`
(a failed `SafeSlice` yields the nil slice).  `groth16.Verify`
returning an error yields output `[0]`; success yields `[1]`. -/
def runBody (m : Groth16ParserModel) (curveID : EccID) (input : List Nat) :
    StepResult (List Nat) :=
  match Groth16Params curveID with
  | none => .err .unsupportedCurve
  | some params =>
    if (input.length : Int) < params.proofSize + params.vkSize then
      .err .invalidInputLength
    else
      let n := calculateNumberOfPublicInputs input params
      if n ≤ 0 ∨ n > Groth16MaxPublicInputs then
        .err .invalidInputLength
      else
        let vkTotalSize := params.vkSize + params.g1Size * (n + 1)
        let proofAndVkSize := params.proofSize + vkTotalSize
        let proofBytes := (SafeSlice input 0 params.proofSize).getD []
        let vkBytes := (SafeSlice input params.proofSize proofAndVkSize).getD []
        let publicWitnessBytes :=
          (SafeSlice input proofAndVkSize
            (proofAndVkSize + n * params.singlePublicInputSize)).getD []
        match m.parseProof proofBytes with
        | .fault => .fault
        | .err _ => .err .invalidProof
        | .ok proof =>
          match m.parseVerifyingKey vkBytes n with
          | .fault => .fault
          | .err _ => .err .invalidVerifyingKey
          | .ok vk =>
            match m.parsePublicWitness publicWitnessBytes n with
            | .fault => .fault
            | .err _ => .err .invalidPublicWitness
            | .ok w =>
              match m.verify proof vk w with
              | .fault => .fault
              | .err _ => .ok [0]
              | .ok _ => .ok [1]

/-- `Groth16Verify.Run`: the `defer`/`recover` guard around `runBody`,
mapping a panic to `(nil, ErrorPanicGroth16Verify)`.  The result pair
models Go's `([]byte, error)` return. -/
def Run (m : Groth16ParserModel) (curveID : EccID) (input : List Nat) :
    Option (List Nat) × Option GoErr :=
  match runBody m curveID input with
  | .fault => (none, some .internalFault)
  | .err e => (none, some e)
  | .ok out => (some out, none)

/-- Lift an `Except`-returning parser function (one that never panics)
into a `StepResult`. -/
def exceptToStep {A : Type} : Except GoErr A → StepResult A
  | .error e => .err e
  | .ok a => .ok a

/-- The `SolidityBN254Parser` model: the structural byte parsers above,
with the pairing engine's verdict abstracted as a boolean function
(`groth16.Verify` succeeding ↔ `verdict … = true`). -/
def bn254Parser (verdict : ProofBN254 → VerifyingKeyBN254 → List Nat → Bool) :
    Groth16ParserModel where
  parseProof := fun d => exceptToStep (ParseProof d)
  parseVerifyingKey := fun d n => exceptToStep (ParseVerifyingKey d n)
  parsePublicWitness := fun d n => exceptToStep (ParsePublicWitness d n)
  verify := fun p vk w => if verdict p vk w then .ok () else .err .invalidProof

/-- `NewGroth16BN254Verify().Run`: the BN254 verifier. -/
def RunBN254 (verdict : ProofBN254 → VerifyingKeyBN254 → List Nat → Bool)
    (input : List Nat) : Option (List Nat) × Option GoErr :=
  Run (bn254Parser verdict) .bn254 input

/-! ### Basic lemmas about `SafeSlice` and the point parsers -/

theorem SafeSlice_eq_some (data : List Nat) (s e : Int) (h0 : 0 ≤ s) (h1 : s ≤ e)
    (h2 : e ≤ (data.length : Int)) :
    SafeSlice data s e = some ((data.drop s.toNat).take (e - s).toNat) := by
  simp only [SafeSlice]
  rw [if_neg (by omega)]

theorem SafeSlice_eq_none (data : List Nat) (s e : Int)
    (h : s < 0 ∨ e < 0 ∨ s > e ∨ e > (data.length : Int)) :
    SafeSlice data s e = none := by
  simp only [SafeSlice]
  rw [if_pos h]

theorem SafeSlice_none_iff (data : List Nat) (s e : Int) :
    SafeSlice data s e = none ↔ (s < 0 ∨ e < 0 ∨ s > e ∨ e > (data.length : Int)) := by
  simp only [SafeSlice]
  split
  · simp only [eq_self_iff_true, true_iff]
    assumption
  · simp only [reduceCtorEq, false_iff]
    assumption

theorem BN254Groth16FieldSize_eq : BN254Groth16FieldSize = 32 := rfl

theorem BN254Groth16G1Size_eq : BN254Groth16G1Size = 64 := rfl

theorem BN254Groth16G2Size_eq : BN254Groth16G2Size = 128 := rfl

/-- A bounds-respecting slice between `Nat` endpoints. -/
theorem SafeSlice_nat (data : List Nat) (a b : Nat) (hab : a ≤ b)
    (h : b ≤ data.length) :
    SafeSlice data (a : Int) (b : Int) = some ((data.drop a).take (b - a)) := by
  have h1 : ((a : Int)).toNat = a := Int.toNat_natCast a
  have h2 : ((b : Int) - (a : Int)).toNat = b - a := by omega
  rw [SafeSlice_eq_some data _ _ (by omega) (by exact_mod_cast hab)
    (by exact_mod_cast h), h1, h2]

theorem ParseG1_ok (data : List Nat) (offset : Int) (h0 : 0 ≤ offset)
    (h : offset + 64 ≤ (data.length : Int)) :
    ParseG1 data offset =
      .ok ({ x := setBytes ((data.drop offset.toNat).take 32),
             y := setBytes ((data.drop (offset.toNat + 32)).take 32) }, offset + 64) := by
  obtain ⟨o, rfl⟩ : ∃ o : Nat, (o : Int) = offset := ⟨offset.toNat, Int.toNat_of_nonneg h0⟩
  have hlen : o + 64 ≤ data.length := by exact_mod_cast h
  have e1 : SafeSlice data (o : Int) ((o : Int) + BN254Groth16FieldSize) =
      some ((data.drop o).take 32) := by
    rw [BN254Groth16FieldSize_eq, show ((o : Int) + 32) = ((o + 32 : Nat) : Int) by push_cast; ring,
      SafeSlice_nat data o (o + 32) (by omega) (by omega),
      show o + 32 - o = 32 by omega]
  have e2 : SafeSlice data ((o : Int) + BN254Groth16FieldSize)
      ((o : Int) + 2 * BN254Groth16FieldSize) =
      some ((data.drop (o + 32)).take 32) := by
    rw [BN254Groth16FieldSize_eq,
      show ((o : Int) + 32) = ((o + 32 : Nat) : Int) by push_cast; ring,
      show ((o : Int) + 2 * 32) = ((o + 64 : Nat) : Int) by push_cast; ring,
      SafeSlice_nat data (o + 32) (o + 64) (by omega) (by omega),
      show o + 64 - (o + 32) = 32 by omega]
  simp only [ParseG1, e1, e2, BN254Groth16G1Size_eq, Int.toNat_natCast]

theorem ParseG1_error (data : List Nat) (offset : Int)
    (h : offset < 0 ∨ offset + 64 > (data.length : Int)) :
    ParseG1 data offset = .error (.invalidG1, offset) := by
  simp only [ParseG1, BN254Groth16FieldSize_eq]
  rcases lt_or_ge offset 0 with h2 | h2
  · rw [SafeSlice_eq_none data _ _ (by omega)]
  · replace h : offset + 64 > (data.length : Int) := by omega
    by_cases h1 : offset + 32 > (data.length : Int)
    · rw [SafeSlice_eq_none data _ _ (by omega)]
    · rw [SafeSlice_eq_some data _ _ (by omega) (by omega) (by omega)]
      rw [SafeSlice_eq_none data _ _ (by omega)]

theorem ParseG2_ok (data : List Nat) (offset : Int) (h0 : 0 ≤ offset)
    (h : offset + 128 ≤ (data.length : Int)) :
    ParseG2 data offset =
      .ok ({ xA1 := setBytes ((data.drop offset.toNat).take 32),
             xA0 := setBytes ((data.drop (offset.toNat + 32)).take 32),
             yA1 := setBytes ((data.drop (offset.toNat + 64)).take 32),
             yA0 := setBytes ((data.drop (offset.toNat + 96)).take 32) },
           offset + 128) := by
  obtain ⟨o, rfl⟩ : ∃ o : Nat, (o : Int) = offset := ⟨offset.toNat, Int.toNat_of_nonneg h0⟩
  have hlen : o + 128 ≤ data.length := by exact_mod_cast h
  have e1 : SafeSlice data (o : Int) ((o : Int) + BN254Groth16FieldSize) =
      some ((data.drop o).take 32) := by
    rw [BN254Groth16FieldSize_eq, show ((o : Int) + 32) = ((o + 32 : Nat) : Int) by push_cast; ring,
      SafeSlice_nat data o (o + 32) (by omega) (by omega),
      show o + 32 - o = 32 by omega]
  have e2 : SafeSlice data ((o : Int) + BN254Groth16FieldSize)
      ((o : Int) + 2 * BN254Groth16FieldSize) =
      some ((data.drop (o + 32)).take 32) := by
    rw [BN254Groth16FieldSize_eq,
      show ((o : Int) + 32) = ((o + 32 : Nat) : Int) by push_cast; ring,
      show ((o : Int) + 2 * 32) = ((o + 64 : Nat) : Int) by push_cast; ring,
      SafeSlice_nat data (o + 32) (o + 64) (by omega) (by omega),
      show o + 64 - (o + 32) = 32 by omega]
  have e3 : SafeSlice data ((o : Int) + 2 * BN254Groth16FieldSize)
      ((o : Int) + 3 * BN254Groth16FieldSize) =
      some ((data.drop (o + 64)).take 32) := by
    rw [BN254Groth16FieldSize_eq,
      show ((o : Int) + 2 * 32) = ((o + 64 : Nat) : Int) by push_cast; ring,
      show ((o : Int) + 3 * 32) = ((o + 96 : Nat) : Int) by push_cast; ring,
      SafeSlice_nat data (o + 64) (o + 96) (by omega) (by omega),
      show o + 96 - (o + 64) = 32 by omega]
  have e4 : SafeSlice data ((o : Int) + 3 * BN254Groth16FieldSize)
      ((o : Int) + 128) =
      some ((data.drop (o + 96)).take 32) := by
    rw [BN254Groth16FieldSize_eq,
      show ((o : Int) + 3 * 32) = ((o + 96 : Nat) : Int) by push_cast; ring,
      show ((o : Int) + 128) = ((o + 128 : Nat) : Int) by push_cast; ring,
      SafeSlice_nat data (o + 96) (o + 128) (by omega) (by omega),
      show o + 128 - (o + 96) = 32 by omega]
  simp only [ParseG2, e1, e2, e3, e4, BN254Groth16G2Size_eq, Int.toNat_natCast]

theorem ParseG2_error (data : List Nat) (offset : Int)
    (h : offset < 0 ∨ offset + 128 > (data.length : Int)) :
    ParseG2 data offset = .error (.invalidG2, offset) := by
  simp only [ParseG2, BN254Groth16FieldSize_eq, BN254Groth16G2Size_eq]
  rcases lt_or_ge offset 0 with h2 | h2
  · rw [SafeSlice_eq_none data _ _ (by omega)]
  · replace h : offset + 128 > (data.length : Int) := by omega
    by_cases b1 : offset + 32 > (data.length : Int)
    · rw [SafeSlice_eq_none data _ _ (by omega)]
    · rw [SafeSlice_eq_some data _ _ (by omega) (by omega) (by omega)]
      by_cases b2 : offset + 2 * 32 > (data.length : Int)
      · rw [SafeSlice_eq_none data _ _ (by omega)]
      · rw [SafeSlice_eq_some data _ _ (by omega) (by omega) (by omega)]
        by_cases b3 : offset + 3 * 32 > (data.length : Int)
        · rw [SafeSlice_eq_none data _ _ (by omega)]
        · rw [SafeSlice_eq_some data _ _ (by omega) (by omega) (by omega)]
          rw [SafeSlice_eq_none data _ _ (by omega)]

/-! ### Structural success of the composite parsers -/

theorem ParseG1_ok_nat (data : List Nat) (o : Nat) (h : o + 64 ≤ data.length) :
    ParseG1 data (o : Int) =
      .ok ({ x := setBytes ((data.drop o).take 32),
             y := setBytes ((data.drop (o + 32)).take 32) }, ((o + 64 : Nat) : Int)) := by
  have := ParseG1_ok data (o : Int) (by exact_mod_cast o.zero_le) (by exact_mod_cast h)
  simpa using this

theorem ParseG2_ok_nat (data : List Nat) (o : Nat) (h : o + 128 ≤ data.length) :
    ParseG2 data (o : Int) =
      .ok ({ xA1 := setBytes ((data.drop o).take 32),
             xA0 := setBytes ((data.drop (o + 32)).take 32),
             yA1 := setBytes ((data.drop (o + 64)).take 32),
             yA0 := setBytes ((data.drop (o + 96)).take 32) }, ((o + 128 : Nat) : Int)) := by
  have := ParseG2_ok data (o : Int) (by exact_mod_cast o.zero_le) (by exact_mod_cast h)
  simpa using this

theorem parseKPoints_ok (data : List Nat) (count : Nat) :
    ∀ o : Nat, o + 64 * count ≤ data.length →
      ∃ ps, parseKPoints data count (o : Int) = .ok (ps, ((o + 64 * count : Nat) : Int)) := by
  induction count with
  | zero =>
    intro o _
    exact ⟨[], by simp [parseKPoints]⟩
  | succ n ih =>
    intro o h
    obtain ⟨ps, hps⟩ := ih (o + 64) (by omega)
    have p1 := ParseG1_ok_nat data o (by omega)
    simp only [show o + 64 * (n + 1) = o + 64 + 64 * n from by ring]
    simp only [parseKPoints, p1, hps]
    exact ⟨_, rfl⟩

theorem parseWitnessFields_ok (data : List Nat) (count : Nat) :
    ∀ o : Nat, o + 32 * count ≤ data.length →
      ∃ w, parseWitnessFields data count (o : Int) = .ok w := by
  induction count with
  | zero =>
    intro o _
    exact ⟨[], by simp [parseWitnessFields]⟩
  | succ n ih =>
    intro o h
    obtain ⟨w, hw⟩ := ih (o + 32) (by omega)
    have e1 : SafeSlice data (o : Int) ((o + 32 : Nat) : Int) =
        some ((data.drop o).take 32) := by
      rw [SafeSlice_nat data o (o + 32) (by omega) (by omega),
        show o + 32 - o = 32 from by omega]
    simp only [parseWitnessFields, e1,
      show ((o : Int) + BN254Groth16FieldSize) = ((o + 32 : Nat) : Int) from by
        rw [BN254Groth16FieldSize_eq]; push_cast; ring, hw]
    exact ⟨_, rfl⟩

theorem ParseProof_ok (data : List Nat) (h : 256 ≤ data.length) :
    ∃ proof, ParseProof data = .ok proof := by
  have p1 := ParseG1_ok_nat data 0 (by omega)
  have p2 := ParseG2_ok_nat data 64 (by omega)
  have p3 := ParseG1_ok_nat data 192 (by omega)
  norm_num at p1 p2 p3
  unfold ParseProof
  rw [p1]
  simp only [p2, p3]
  exact ⟨_, rfl⟩

theorem ParseVerifyingKey_ok (data : List Nat) (n : Int) (hn : 0 ≤ n)
    (h : 448 + 64 * (n + 1) ≤ (data.length : Int)) :
    ∃ vk, ParseVerifyingKey data n = .ok vk := by
  obtain ⟨m, rfl⟩ : ∃ m : Nat, (m : Int) = n := ⟨n.toNat, Int.toNat_of_nonneg hn⟩
  have hlen : 448 + 64 * (m + 1) ≤ data.length := by exact_mod_cast h
  have p1 := ParseG1_ok_nat data 0 (by omega)
  have q1 := ParseG2_ok_nat data 64 (by omega)
  have q2 := ParseG2_ok_nat data 192 (by omega)
  have q3 := ParseG2_ok_nat data 320 (by omega)
  obtain ⟨ps, hps⟩ := parseKPoints_ok data (m + 1) 448 (by omega)
  norm_num at p1 q1 q2 q3 hps
  have hcount : (((m : Int) + 1)).toNat = m + 1 := by omega
  unfold ParseVerifyingKey
  rw [p1]
  simp only [q1, q2, q3, hcount, hps]
  exact ⟨_, rfl⟩

theorem ParsePublicWitness_ok (data : List Nat) (n : Int)
    (h : 32 * n.toNat ≤ data.length) :
    ∃ w, ParsePublicWitness data n = .ok w := by
  obtain ⟨w, hw⟩ := parseWitnessFields_ok data n.toNat 0 (by omega)
  exact ⟨w, by simpa [ParsePublicWitness] using hw⟩

/-! ### The gas model -/

theorem Groth16Params_bn254 :
    Groth16Params .bn254 =
      some { proofSize := 256, vkSize := 448, g1Size := 64,
             singlePublicInputSize := 32, baseGas := 220000 } := rfl

theorem calcN_bn254 (input : List Nat) :
    calculateNumberOfPublicInputs input
      { proofSize := 256, vkSize := 448, g1Size := 64,
        singlePublicInputSize := 32, baseGas := 220000 } =
      ((input.length : Int) - 768).tdiv 96 := by
  simp only [calculateNumberOfPublicInputs]
  rw [show ((input.length : Int) - 256 - 448 - 64) = (input.length : Int) - 768 from by ring,
    show ((64 : Int) + 32) = 96 from by norm_num]

theorem RequiredGas_bn254 (input : List Nat) :
    RequiredGas .bn254 input =
      (220000 + 26700 * intToUInt64 (((input.length : Int) - 768).tdiv 96)) % 2 ^ 64 := by
  simp only [RequiredGas, Groth16Params_bn254, calcN_bn254, BabyJubJubCurveAddGas,
    BabyJubJubCurveMulGas]
  norm_num [intToUInt64]
  rfl

/-- Gas on the exact base layout `768 + 96 * n`. -/
theorem RequiredGas_base_layout (n : Nat) (hn : n ≤ 64) (input : List Nat)
    (hlen : input.length = 768 + 96 * n) :
    RequiredGas .bn254 input = 220000 + 26700 * n := by
  rw [RequiredGas_bn254, hlen]
  rw [show (((768 + 96 * n : Nat) : Int) - 768) = 96 * (n : Int) from by push_cast; ring,
    Int.mul_tdiv_cancel_left _ (by norm_num)]
  have h2 : intToUInt64 (n : Int) = n := by
    have hlt : (n : Int) < 2 ^ 64 := by
      calc (n : Int) ≤ 64 := by exact_mod_cast hn
      _ < 2 ^ 64 := by norm_num
    simp only [intToUInt64]
    rw [show ((n : Int)).emod (2 ^ 64) = (n : Int) from
      Int.emod_eq_of_lt (by exact_mod_cast n.zero_le) hlt, Int.toNat_natCast]
  rw [h2, Nat.mod_eq_of_lt (by omega)]

theorem Groth16Params_eq_none (id : EccID) (h : id ≠ .bn254) : Groth16Params id = none := by
  cases id
  · exact absurd rfl h
  · rfl
  · rfl
  · rfl
  · rfl

/-! ### Claims about the gas model and curve registry -/

/-- C3: for every `n` in `[1, 64]` and every input of length exactly
`768 + 96 * n`, `RequiredGas` returns `baseGas + (addGas + mulGas) * n`,
that is `220000 + 26700 * n`. -/
theorem requiredGas_bn254_base_layout (n : Nat) (h1 : 1 ≤ n) (h64 : n ≤ 64)
    (input : List Nat) (hlen : input.length = 768 + 96 * n) :
    RequiredGas .bn254 input =
      220000 + (BabyJubJubCurveAddGas + BabyJubJubCurveMulGas) * n ∧
    RequiredGas .bn254 input = 220000 + 26700 * n := by
  have h := RequiredGas_base_layout n h64 input hlen
  exact ⟨by rw [h]; rfl, h⟩

/-- C3 witness: a single public input (length 864) costs exactly 246700. -/
theorem requiredGas_bn254_base_layout_witness :
    (List.replicate 864 0).length = 768 + 96 * 1 ∧
      RequiredGas .bn254 (List.replicate 864 0) = 246700 := by
  have h := requiredGas_bn254_base_layout 1 le_rfl (by norm_num)
    (List.replicate 864 0) (by rw [List.length_replicate])
  exact ⟨by rw [List.length_replicate], by rw [h.2]⟩

/-- C8: `RequiredGas` is deterministic (it is a pure function of its
arguments), and on base-layout inputs it is non-decreasing in the
public-input count. -/
theorem requiredGas_deterministic_and_monotone :
    (∀ (id : EccID) (input : List Nat), RequiredGas id input = RequiredGas id input) ∧
    (∀ n1 n2 : Nat, 1 ≤ n1 → n1 ≤ n2 → n2 ≤ 64 →
      ∀ input1 input2 : List Nat, input1.length = 768 + 96 * n1 →
        input2.length = 768 + 96 * n2 →
        RequiredGas .bn254 input1 ≤ RequiredGas .bn254 input2) := by
  refine ⟨fun _ _ => rfl, fun n1 n2 h1 h12 h64 i1 i2 hl1 hl2 => ?_⟩
  rw [RequiredGas_base_layout n1 (by omega) i1 hl1,
    RequiredGas_base_layout n2 h64 i2 hl2]
  omega

/-- C8 witness: gas for one public input is at most gas for two. -/
theorem requiredGas_deterministic_and_monotone_witness :
    RequiredGas .bn254 (List.replicate 864 0) = RequiredGas .bn254 (List.replicate 864 0) ∧
      RequiredGas .bn254 (List.replicate 864 0) ≤ RequiredGas .bn254 (List.replicate 960 0) :=
  ⟨requiredGas_deterministic_and_monotone.1 .bn254 (List.replicate 864 0),
    requiredGas_deterministic_and_monotone.2 1 2 le_rfl (by norm_num) (by norm_num)
      (List.replicate 864 0) (List.replicate 960 0) (by rw [List.length_replicate])
      (by rw [List.length_replicate])⟩

/-- C9: for a curve identifier that is not registered in
`Groth16Params`, `Run` returns `(nil, ErrorGroth16VerifyUnsupportedCurve)`
for every parser model and every input, and `RequiredGas` returns 0. -/
theorem unsupported_curve_rejected (id : EccID) (h : Groth16Params id = none)
    (m : Groth16ParserModel) (input : List Nat) :
    Run m id input = (none, some .unsupportedCurve) ∧ RequiredGas id input = 0 := by
  constructor
  · simp only [Run, runBody, h]
  · simp only [RequiredGas, h]

/-- C9 witness: the BLS12-377 identifier with the BN254 parser and the
empty input (the repository's own `TestGroth16UnsupportedCurve`
configuration). -/
theorem unsupported_curve_rejected_witness :
    Run (bn254Parser (fun _ _ _ => true)) .bls12_377 [] = (none, some .unsupportedCurve) ∧
      RequiredGas .bls12_377 [] = 0 :=
  unsupported_curve_rejected .bls12_377 rfl (bn254Parser (fun _ _ _ => true)) []

/-- C10: whenever the inferred public-input count
`((len - 768) tdiv 96)` is negative, the Go `int -> uint64` cast wraps:
the gas equals `(220000 + 26700 * n) mod 2 ^ 64`, which is neither 0 nor
the base gas 220000; for the empty input it is exactly 6400. -/
theorem requiredGas_bn254_negative_count (input : List Nat)
    (hneg : (((input.length : Int) - 768).tdiv 96) < 0) :
    RequiredGas .bn254 input =
      ((220000 + 26700 * (((input.length : Int) - 768).tdiv 96)).emod (2 ^ 64)).toNat ∧
    RequiredGas .bn254 input ≠ 0 ∧
    RequiredGas .bn254 input ≠ 220000 ∧
    (input = [] → RequiredGas .bn254 input = 6400) := by
  have hb := RequiredGas_bn254 input
  have hLneg : (input.length : Int) - 768 < 0 := by
    by_contra h'
    push_neg at h'
    exact absurd (Int.tdiv_nonneg h' (by norm_num : (0 : Int) ≤ 96)) (by omega)
  have h8 : -8 ≤ ((input.length : Int) - 768).tdiv 96 := by
    have ha : (input.length : Int) - 768 = -(768 - (input.length : Int)) := by ring
    have hbound : (768 - (input.length : Int)).tdiv 96 ≤ 8 := by
      rw [Int.tdiv_eq_ediv (by omega) (by norm_num)]
      have h2 := Int.ediv_le_ediv (a := 768 - (input.length : Int)) (b := 768) (c := 96)
        (by norm_num) (by omega)
      norm_num at h2
      exact h2
    rw [ha, Int.neg_tdiv]
    omega
  have hcases : ((input.length : Int) - 768).tdiv 96 = -8 ∨
      ((input.length : Int) - 768).tdiv 96 = -7 ∨
      ((input.length : Int) - 768).tdiv 96 = -6 ∨
      ((input.length : Int) - 768).tdiv 96 = -5 ∨
      ((input.length : Int) - 768).tdiv 96 = -4 ∨
      ((input.length : Int) - 768).tdiv 96 = -3 ∨
      ((input.length : Int) - 768).tdiv 96 = -2 ∨
      ((input.length : Int) - 768).tdiv 96 = -1 := by omega
  have hempty : input = [] → RequiredGas .bn254 input = 6400 := by
    intro he
    subst he
    decide
  rcases hcases with hv | hv | hv | hv | hv | hv | hv | hv <;>
    rw [hv] at hb <;>
    refine ⟨by rw [hb, hv]; decide, by rw [hb]; decide, by rw [hb]; decide, hempty⟩

/-- C10 witness: the empty input has inferred count `-8` and gas 6400. -/
theorem requiredGas_bn254_negative_count_witness :
    ((((List.length ([] : List Nat)) : Int) - 768).tdiv 96) < 0 ∧
      RequiredGas .bn254 [] = 6400 := by
  have h := requiredGas_bn254_negative_count [] (by decide)
  exact ⟨by decide, h.2.2.2 rfl⟩

/-! ### Run on the BN254 structural parsers: the success path -/

set_option maxRecDepth 8000 in
theorem RunBN254_ok_of_bounds (verdict : ProofBN254 → VerifyingKeyBN254 → List Nat → Bool)
    (input : List Nat)
    (h704 : 704 ≤ input.length)
    (hn1 : 1 ≤ (((input.length : Int) - 768).tdiv 96))
    (hn64 : (((input.length : Int) - 768).tdiv 96) ≤ 64) :
    ∃ b : Nat, (b = 0 ∨ b = 1) ∧ RunBN254 verdict input = (some [b], none) ∧
      ((∀ p v w, verdict p v w = true) → b = 1) ∧
      ((∀ p v w, verdict p v w = false) → b = 0) := by
  have hL768 : 0 ≤ (input.length : Int) - 768 := by
    by_contra h'
    push_neg at h'
    have ha : (input.length : Int) - 768 = -(768 - (input.length : Int)) := by ring
    have := Int.tdiv_nonneg (a := 768 - (input.length : Int)) (by omega)
      (by norm_num : (0 : Int) ≤ 96)
    rw [ha, Int.neg_tdiv] at hn1
    omega
  obtain ⟨m, hm⟩ : ∃ m : Nat, (((input.length : Int) - 768).tdiv 96) = (m : Int) :=
    ⟨_, (Int.toNat_of_nonneg (by omega)).symm⟩
  have hm1 : 1 ≤ m := by exact_mod_cast hm ▸ hn1
  have hm64 : m ≤ 64 := by exact_mod_cast hm ▸ hn64
  have key : 96 * (m : Int) ≤ (input.length : Int) - 768 := by
    rw [← hm, Int.tdiv_eq_ediv hL768 (by norm_num)]
    have := Int.ediv_mul_le ((input.length : Int) - 768) (b := 96) (by norm_num)
    omega
  have keyN : 768 + 96 * m ≤ input.length := by exact_mod_cast by omega
  have hs1 : SafeSlice input 0 256 = some (input.take 256) := by
    rw [SafeSlice_eq_some input _ _ le_rfl (by norm_num) (by omega),
      show ((0 : Int)).toNat = 0 from rfl,
      show (((256 : Int)) - 0).toNat = 256 from rfl, List.drop_zero]
  have hs2 : SafeSlice input 256 (256 + (448 + 64 * ((m : Int) + 1))) =
      some ((input.drop 256).take (512 + 64 * m)) := by
    rw [SafeSlice_eq_some input _ _ (by norm_num) (by omega) (by omega),
      show ((256 : Int)).toNat = 256 from rfl,
      show ((256 + (448 + 64 * ((m : Int) + 1)) - 256)).toNat = 512 + 64 * m from by omega]
  have hs3 : SafeSlice input (256 + (448 + 64 * ((m : Int) + 1)))
      (256 + (448 + 64 * ((m : Int) + 1)) + (m : Int) * 32) =
      some ((input.drop (768 + 64 * m)).take (32 * m)) := by
    rw [SafeSlice_eq_some input _ _ (by omega) (by omega) (by omega),
      show ((256 + (448 + 64 * ((m : Int) + 1)))).toNat = 768 + 64 * m from by omega,
      show ((256 + (448 + 64 * ((m : Int) + 1)) + (m : Int) * 32 -
        (256 + (448 + 64 * ((m : Int) + 1))))).toNat = 32 * m from by omega]
  obtain ⟨pf, hp⟩ := ParseProof_ok (input.take 256)
    (by rw [List.length_take]; omega)
  obtain ⟨vk, hv⟩ := ParseVerifyingKey_ok ((input.drop 256).take (512 + 64 * m)) (m : Int)
    (by positivity)
    (by rw [List.length_take, List.length_drop]; omega)
  obtain ⟨w, hw⟩ := ParsePublicWitness_ok ((input.drop (768 + 64 * m)).take (32 * m)) (m : Int)
    (by rw [List.length_take, List.length_drop, Int.toNat_natCast]; omega)
  have hc1 : ¬ ((input.length : Int) < 256 + 448) := by push_cast; omega
  have hc2 : ¬ ((m : Int) ≤ 0 ∨ (m : Int) > Groth16MaxPublicInputs) := by
    simp only [Groth16MaxPublicInputs]
    push_neg
    constructor
    · exact_mod_cast hm1
    · exact_mod_cast hm64
  simp only [RunBN254, Run, runBody, Groth16Params_bn254, calcN_bn254, hm, hc1, hc2,
    if_false, hs1, hs2, hs3, Option.getD_some, bn254Parser, exceptToStep, hp, hv, hw]
  cases hvb : verdict pf vk w
  · refine ⟨0, Or.inl rfl, by simp [hvb], fun hall => ?_, fun _ => rfl⟩
    rw [hall pf vk w] at hvb
    cases hvb
  · refine ⟨1, Or.inr rfl, by simp [hvb], fun _ => rfl, fun hall => ?_⟩
    rw [hall pf vk w] at hvb
    cases hvb

set_option maxRecDepth 8000 in
theorem runBody_ok_shape (m : Groth16ParserModel) (id : EccID) (input : List Nat)
    (out : List Nat) (h : runBody m id input = .ok out) : out = [0] ∨ out = [1] := by
  unfold runBody at h
  split at h
  · simp_all
  · dsimp only [] at h
    split at h
    · simp_all
    · split at h
      · simp_all
      · split at h
        · simp_all
        · simp_all
        · split at h
          · simp_all
          · simp_all
          · split at h
            · simp_all
            · simp_all
            · split at h
              · simp_all
              · simp_all
              · simp_all


/-- The repository's `panicParser` test double: `ParseProof` panics,
the other methods return benign values. -/
def faultingParser : Groth16ParserModel where
  parseProof := fun _ => .fault
  parseVerifyingKey := fun _ _ => .ok ⟨⟨0, 0⟩, ⟨0, 0, 0, 0⟩, ⟨0, 0, 0, 0⟩, ⟨0, 0, 0, 0⟩, []⟩
  parsePublicWitness := fun _ _ => .ok []
  verify := fun _ _ _ => .ok ()

/-! ### Claims about Run -/

/-- C6: for every parser/engine model, every curve and every input,
`Run` returns either a one-byte output `[0]` or `[1]` with no error, or
no output with an error — never both, and never a success of any other
shape. -/
theorem run_result_shape (m : Groth16ParserModel) (id : EccID) (input : List Nat) :
    (∃ b : Nat, (b = 0 ∨ b = 1) ∧ Run m id input = (some [b], none)) ∨
    (∃ e, Run m id input = (none, some e)) := by
  cases hB : runBody m id input with
  | ok out =>
    left
    rcases runBody_ok_shape m id input out hB with h | h
    · exact ⟨0, Or.inl rfl, by simp [Run, hB, h]⟩
    · exact ⟨1, Or.inr rfl, by simp [Run, hB, h]⟩
  | err e => exact Or.inr ⟨e, by simp [Run, hB]⟩
  | fault => exact Or.inr ⟨.internalFault, by simp [Run, hB]⟩

/-- C5: if any step inside the guarded body of `Run` panics (the body
evaluates to `fault`), the `defer`/`recover` guard converts it into
`(nil, ErrorPanicGroth16Verify)`; `Run`'s result type itself has no
panic outcome, so a panic never escapes the precompile. -/
theorem run_recovers_fault (m : Groth16ParserModel) (id : EccID) (input : List Nat)
    (h : runBody m id input = .fault) :
    Run m id input = (none, some .internalFault) := by
  simp [Run, h]

set_option maxRecDepth 8000 in
/-- C5 witness: `faultingParser` (the repository's `panicParser` test
double, whose `ParseProof` panics) on a minimal well-formed input. -/
theorem run_recovers_fault_witness :
    runBody faultingParser .bn254 (List.replicate 864 0) = .fault ∧
    Run faultingParser .bn254 (List.replicate 864 0) = (none, some .internalFault) := by
  have hB : runBody faultingParser .bn254 (List.replicate 864 0) = .fault := by
    simp only [runBody, Groth16Params_bn254, calcN_bn254, List.length_replicate,
      faultingParser]
    norm_num [show Int.tdiv 96 96 = 1 from by decide, Groth16MaxPublicInputs]
  exact ⟨hB, run_recovers_fault _ .bn254 _ hB⟩

set_option maxRecDepth 8000 in
/-- C4: `Run` on the BN254 verifier returns
`ErrorGroth16VerifyInvalidInputLength` with nil output for input
length 703 (one short of the minimum), length 704 (zero public
inputs), and every input whose inferred public-input count
`(len - 768) tdiv 96` is 65 (all lengths 7008 through 7103). -/
theorem run_bn254_invalid_length_boundaries
    (verdict : ProofBN254 → VerifyingKeyBN254 → List Nat → Bool) (input : List Nat)
    (h : input.length = 703 ∨ input.length = 704 ∨
      (((input.length : Int) - 768).tdiv 96) = 65) :
    RunBN254 verdict input = (none, some .invalidInputLength) := by
  rcases h with h | h | h
  · simp only [RunBN254, Run, runBody, Groth16Params_bn254, h]
    norm_num
  · simp only [RunBN254, Run, runBody, Groth16Params_bn254, calcN_bn254, h]
    norm_num [show Int.tdiv (-64) 96 = 0 from by decide, Groth16MaxPublicInputs]
  · have hL : 0 ≤ (input.length : Int) - 768 := by
      by_contra h'
      push_neg at h'
      have ha : (input.length : Int) - 768 = -(768 - (input.length : Int)) := by ring
      have hnn := Int.tdiv_nonneg (a := 768 - (input.length : Int)) (by omega)
        (by norm_num : (0 : Int) ≤ 96)
      rw [ha, Int.neg_tdiv] at h
      omega
    have hc1 : ¬ ((input.length : Int) < 256 + 448) := by omega
    simp only [RunBN254, Run, runBody, Groth16Params_bn254, calcN_bn254, h, hc1]
    norm_num [Groth16MaxPublicInputs]

/-- C4 witness: all-zero inputs of lengths 703, 704, and both
endpoints (7008 and 7103) of the inferred-count-65 range. -/
theorem run_bn254_invalid_length_boundaries_witness :
    RunBN254 (fun _ _ _ => true) (List.replicate 703 0) = (none, some .invalidInputLength) ∧
    RunBN254 (fun _ _ _ => true) (List.replicate 704 0) = (none, some .invalidInputLength) ∧
    RunBN254 (fun _ _ _ => true) (List.replicate 7008 0) = (none, some .invalidInputLength) ∧
    RunBN254 (fun _ _ _ => true) (List.replicate 7103 0) = (none, some .invalidInputLength) :=
  ⟨run_bn254_invalid_length_boundaries _ _ (Or.inl (by rw [List.length_replicate])),
   run_bn254_invalid_length_boundaries _ _ (Or.inr (Or.inl (by rw [List.length_replicate]))),
   run_bn254_invalid_length_boundaries _ _
     (Or.inr (Or.inr (by rw [List.length_replicate]; decide))),
   run_bn254_invalid_length_boundaries _ _
     (Or.inr (Or.inr (by rw [List.length_replicate]; decide)))⟩

/-- C1 (amended): for every input whose length is at least 704 and whose
inferred public-input count `n = (len - 768) tdiv 96` lies in `[1, 64]`
but whose length is not exactly `768 + 96 * n`, `Run` does NOT reject
the input at all: the witness slice `[768 + 64n, 768 + 96n)` always
fits inside the input, the trailing bytes are ignored, every segment
parses, and `Run` returns a successful one-byte verification result —
in particular neither `ErrorGroth16VerifyInvalidPublicWitness` nor
`ErrorGroth16VerifyInvalidInputLength` is returned. -/
theorem misaligned_input_not_rejected
    (verdict : ProofBN254 → VerifyingKeyBN254 → List Nat → Bool) (input : List Nat)
    (h704 : 704 ≤ input.length)
    (hn1 : 1 ≤ (((input.length : Int) - 768).tdiv 96))
    (hn64 : (((input.length : Int) - 768).tdiv 96) ≤ 64)
    (hmis : (input.length : Int) ≠ 768 + 96 * (((input.length : Int) - 768).tdiv 96)) :
    RunBN254 verdict input ≠ (none, some .invalidPublicWitness) ∧
    RunBN254 verdict input ≠ (none, some .invalidInputLength) ∧
    ∃ b : Nat, (b = 0 ∨ b = 1) ∧ RunBN254 verdict input = (some [b], none) := by
  obtain ⟨b, hb01, hrun, _, _⟩ := RunBN254_ok_of_bounds verdict input h704 hn1 hn64
  exact ⟨by rw [hrun]; simp, by rw [hrun]; simp, b, hb01, hrun⟩

/-- C1 witness: length 961 (inferred count 2, one trailing byte). -/
theorem misaligned_input_not_rejected_witness :
    RunBN254 (fun _ _ _ => true) (List.replicate 961 0) ≠ (none, some .invalidPublicWitness) ∧
    ∃ b : Nat, (b = 0 ∨ b = 1) ∧
      RunBN254 (fun _ _ _ => true) (List.replicate 961 0) = (some [b], none) := by
  have h := misaligned_input_not_rejected (fun _ _ _ => true) (List.replicate 961 0)
    (by rw [List.length_replicate]; norm_num)
    (by rw [List.length_replicate]; decide)
    (by rw [List.length_replicate]; decide)
    (by rw [List.length_replicate]; decide)
  exact ⟨h.1, h.2.2⟩

/-- C1 counterexample: the all-zero input of length 865 has inferred
count 1 and a trailing byte, yet `Run` does not fail with
`ErrorGroth16VerifyInvalidPublicWitness`: whatever verdict the pairing
engine returns, `Run` succeeds with one byte of output. -/
theorem misaligned_input_counterexample :
    1 ≤ ((((List.replicate 865 (0 : Nat)).length : Int) - 768).tdiv 96) ∧
    (((List.replicate 865 (0 : Nat)).length : Int)) ≠
      768 + 96 * ((((List.replicate 865 (0 : Nat)).length : Int) - 768).tdiv 96) ∧
    RunBN254 (fun _ _ _ => true) (List.replicate 865 0) = (some [1], none) ∧
    RunBN254 (fun _ _ _ => false) (List.replicate 865 0) = (some [0], none) := by
  refine ⟨by rw [List.length_replicate]; decide, by rw [List.length_replicate]; decide, ?_, ?_⟩
  · obtain ⟨b, _, hrun, himp, _⟩ := RunBN254_ok_of_bounds (fun _ _ _ => true)
      (List.replicate 865 0)
      (by rw [List.length_replicate]; norm_num)
      (by rw [List.length_replicate]; decide)
      (by rw [List.length_replicate]; decide)
    rw [himp (fun _ _ _ => rfl)] at hrun
    exact hrun
  · obtain ⟨b, _, hrun, _, himp⟩ := RunBN254_ok_of_bounds (fun _ _ _ => false)
      (List.replicate 865 0)
      (by rw [List.length_replicate]; norm_num)
      (by rw [List.length_replicate]; decide)
      (by rw [List.length_replicate]; decide)
    rw [himp (fun _ _ _ => rfl)] at hrun
    exact hrun

/-! ### The G2 point parser (claim C7) -/

theorem bytesToNat_replicate_zero : ∀ n : Nat, bytesToNat (List.replicate n 0) = 0
  | 0 => rfl
  | n + 1 => by
    have ih := bytesToNat_replicate_zero n
    simp only [bytesToNat, List.replicate_succ, List.foldl_cons] at ih ⊢
    simpa using ih

/-- C7: `ParseG2` reads four consecutive 32-byte big-endian field
elements in the order X.A1, X.A0, Y.A1, Y.A0 and returns
`offset + 128` on success; it fails with `common.ErrorInvalidG2` —
returning the input offset unchanged — exactly when one of the four
32-byte reads is out of bounds. -/
theorem parseG2_reads_and_bounds (data : List Nat) (offset : Int) :
    ((0 ≤ offset ∧ offset + 128 ≤ (data.length : Int)) →
      ParseG2 data offset =
        .ok ({ xA1 := setBytes ((data.drop offset.toNat).take 32),
               xA0 := setBytes ((data.drop (offset.toNat + 32)).take 32),
               yA1 := setBytes ((data.drop (offset.toNat + 64)).take 32),
               yA0 := setBytes ((data.drop (offset.toNat + 96)).take 32) },
             offset + 128)) ∧
    (ParseG2 data offset = .error (.invalidG2, offset) ↔
      ∃ k : Nat, k < 4 ∧ SafeSlice data (offset + 32 * k) (offset + 32 * k + 32) = none) := by
  constructor
  · rintro ⟨h0, h⟩
    exact ParseG2_ok data offset h0 h
  · constructor
    · intro herr
      by_cases h0 : 0 ≤ offset
      · by_cases h128 : offset + 128 ≤ (data.length : Int)
        · rw [ParseG2_ok data offset h0 h128] at herr
          cases herr
        · exact ⟨3, by norm_num, SafeSlice_eq_none data _ _ (by omega)⟩
      · exact ⟨0, by norm_num, SafeSlice_eq_none data _ _ (by omega)⟩
    · rintro ⟨k, hk4, hnone⟩
      rw [SafeSlice_none_iff] at hnone
      exact ParseG2_error data offset (by omega)

/-- C7 witness: a successful parse at offset 0 of a 128-byte zero
buffer, and the failing third read at offset 5 of a 100-byte buffer. -/
theorem parseG2_reads_and_bounds_witness :
    ParseG2 (List.replicate 128 (0 : Nat)) 0 = .ok (⟨0, 0, 0, 0⟩, 128) ∧
    ParseG2 (List.replicate 100 (0 : Nat)) 5 = .error (.invalidG2, 5) := by
  constructor
  · have h := (parseG2_reads_and_bounds (List.replicate 128 (0 : Nat)) 0).1
      ⟨le_rfl, by rw [List.length_replicate]; norm_num⟩
    have hseq : ∀ a : Nat, setBytes (((List.replicate 128 (0 : Nat)).drop a).take 32) = 0 := by
      intro a
      rw [List.drop_replicate, List.take_replicate, setBytes, bytesToNat_replicate_zero,
        Nat.zero_mod]
    simp only [Int.toNat_zero, Nat.zero_add] at h
    rw [h, hseq 0, hseq 32, hseq 64, hseq 96]
    norm_num
  · exact (parseG2_reads_and_bounds (List.replicate 100 (0 : Nat)) 5).2.mpr
      ⟨3, by norm_num, SafeSlice_eq_none _ _ _ (by rw [List.length_replicate]; norm_num)⟩

/-! ### Serializer/parser round trip (claim C2) -/

theorem beBytes32_length (x : Nat) : (beBytes32 x).length = 32 := by
  simp [beBytes32]

theorem flatten_extract (blocks : List (List Nat)) (h32 : ∀ b ∈ blocks, b.length = 32) :
    ∀ j : Nat, j < blocks.length →
      ((blocks.flatten).drop (32 * j)).take 32 = blocks.getD j [] := by
  induction blocks with
  | nil =>
    intro j hj
    simp at hj
  | cons b bs ih =>
    intro j hj
    have hb : b.length = 32 := h32 b (by simp)
    cases j with
    | zero =>
      simp only [List.flatten_cons, Nat.mul_zero, List.drop_zero, List.getD]
      rw [List.take_left' hb]
      rfl
    | succ j2 =>
      have hdrop : ((b :: bs).flatten).drop (32 * (j2 + 1)) = (bs.flatten).drop (32 * j2) := by
        rw [List.flatten_cons, show 32 * (j2 + 1) = b.length + 32 * j2 from by omega,
          List.drop_append]
      rw [hdrop, ih (fun x hx => h32 x (by simp [hx])) j2 (by simpa using hj)]
      rfl


/-- A concrete verifying key whose G2 points have distinct Y components. -/
def vkSwapExample : VerifyingKeyBN254 :=
  { alpha := ⟨1, 2⟩, beta := ⟨3, 4, 5, 6⟩, gamma := ⟨7, 8, 9, 10⟩,
    delta := ⟨11, 12, 13, 14⟩, k := [⟨15, 16⟩] }

/-- The serialized form of `vkSwapExample` as 16 blocks of 32 bytes, in
the order the serializer writes them (note y0 before y1 in each G2). -/
def vkSwapBlocks : List (List Nat) :=
  [beBytes32 1, beBytes32 2,
   beBytes32 3, beBytes32 4, beBytes32 6, beBytes32 5,
   beBytes32 7, beBytes32 8, beBytes32 10, beBytes32 9,
   beBytes32 11, beBytes32 12, beBytes32 14, beBytes32 13,
   beBytes32 15, beBytes32 16]

theorem serialize_vkSwapExample :
    SerializeVerifyingKey vkSwapExample = vkSwapBlocks.flatten := by
  simp [SerializeVerifyingKey, serializeG1, serializeG2VK, vkSwapExample, vkSwapBlocks,
    List.flatten_cons, List.append_assoc]

theorem vkSwapBlocks_length : (vkSwapBlocks.flatten).length = 512 := by
  simp [vkSwapBlocks, beBytes32_length]

/-- C2 (refuted on the code): `SerializeVerifyingKey` writes each G2
point's Y components in the order y0, y1, while `ParseG2` reads y1
then y0, so the round trip returns Beta, Gamma and Delta with their
`Y.A1`/`Y.A0` components exchanged — not a structurally equivalent
key.  Alpha, the IC points, and the X components survive intact; the
parse itself succeeds. -/
theorem serialize_parse_vk_swaps_G2Y :
    ParseVerifyingKey (SerializeVerifyingKey vkSwapExample) 0 =
      .ok { alpha := ⟨1, 2⟩, beta := ⟨3, 4, 6, 5⟩, gamma := ⟨7, 8, 10, 9⟩,
            delta := ⟨11, 12, 14, 13⟩, k := [⟨15, 16⟩] } ∧
    ({ alpha := ⟨1, 2⟩, beta := ⟨3, 4, 6, 5⟩, gamma := ⟨7, 8, 10, 9⟩,
       delta := ⟨11, 12, 14, 13⟩, k := [⟨15, 16⟩] } : VerifyingKeyBN254) ≠ vkSwapExample := by
  refine ⟨?_, by decide⟩
  rw [serialize_vkSwapExample]
  have h32 : ∀ b ∈ vkSwapBlocks, b.length = 32 := by
    intro b hb
    simp only [vkSwapBlocks, List.mem_cons, List.not_mem_nil, or_false] at hb
    rcases hb with rfl | rfl | rfl | rfl | rfl | rfl | rfl | rfl | rfl | rfl | rfl | rfl | rfl | rfl | rfl | rfl <;>
      exact beBytes32_length _
  have hx := flatten_extract vkSwapBlocks h32
  have E : ∀ j : Nat, j < 16 →
      ((vkSwapBlocks.flatten).drop (32 * j)).take 32 = vkSwapBlocks.getD j [] := by
    intro j hj
    exact hx j (by simp [vkSwapBlocks]; omega)
  have p1 := ParseG1_ok_nat (vkSwapBlocks.flatten) 0
    (by simp only [vkSwapBlocks_length]; omega)
  have q1 := ParseG2_ok_nat (vkSwapBlocks.flatten) 64
    (by simp only [vkSwapBlocks_length]; omega)
  have q2 := ParseG2_ok_nat (vkSwapBlocks.flatten) 192
    (by simp only [vkSwapBlocks_length]; omega)
  have q3 := ParseG2_ok_nat (vkSwapBlocks.flatten) 320
    (by simp only [vkSwapBlocks_length]; omega)
  have pk := ParseG1_ok_nat (vkSwapBlocks.flatten) 448
    (by simp only [vkSwapBlocks_length]; omega)
  have e0 := E 0 (by norm_num); have e1 := E 1 (by norm_num)
  have e2 := E 2 (by norm_num); have e3 := E 3 (by norm_num)
  have e4 := E 4 (by norm_num); have e5 := E 5 (by norm_num)
  have e6 := E 6 (by norm_num); have e7 := E 7 (by norm_num)
  have e8 := E 8 (by norm_num); have e9 := E 9 (by norm_num)
  have e10 := E 10 (by norm_num); have e11 := E 11 (by norm_num)
  have e12 := E 12 (by norm_num); have e13 := E 13 (by norm_num)
  have e14 := E 14 (by norm_num); have e15 := E 15 (by norm_num)
  rw [show vkSwapBlocks.getD 0 [] = beBytes32 1 from rfl] at e0
  rw [show vkSwapBlocks.getD 1 [] = beBytes32 2 from rfl] at e1
  rw [show vkSwapBlocks.getD 2 [] = beBytes32 3 from rfl] at e2
  rw [show vkSwapBlocks.getD 3 [] = beBytes32 4 from rfl] at e3
  rw [show vkSwapBlocks.getD 4 [] = beBytes32 6 from rfl] at e4
  rw [show vkSwapBlocks.getD 5 [] = beBytes32 5 from rfl] at e5
  rw [show vkSwapBlocks.getD 6 [] = beBytes32 7 from rfl] at e6
  rw [show vkSwapBlocks.getD 7 [] = beBytes32 8 from rfl] at e7
  rw [show vkSwapBlocks.getD 8 [] = beBytes32 10 from rfl] at e8
  rw [show vkSwapBlocks.getD 9 [] = beBytes32 9 from rfl] at e9
  rw [show vkSwapBlocks.getD 10 [] = beBytes32 11 from rfl] at e10
  rw [show vkSwapBlocks.getD 11 [] = beBytes32 12 from rfl] at e11
  rw [show vkSwapBlocks.getD 12 [] = beBytes32 14 from rfl] at e12
  rw [show vkSwapBlocks.getD 13 [] = beBytes32 13 from rfl] at e13
  rw [show vkSwapBlocks.getD 14 [] = beBytes32 15 from rfl] at e14
  rw [show vkSwapBlocks.getD 15 [] = beBytes32 16 from rfl] at e15
  norm_num at e0 e1 e2 e3 e4 e5 e6 e7 e8 e9 e10 e11 e12 e13 e14 e15 p1 q1 q2 q3 pk
  rw [e0, e1] at p1
  rw [e2, e3, e4, e5] at q1
  rw [e6, e7, e8, e9] at q2
  rw [e10, e11, e12, e13] at q3
  rw [e14, e15] at pk
  rw [show setBytes (beBytes32 1) = 1 from by decide,
    show setBytes (beBytes32 2) = 2 from by decide] at p1
  rw [show setBytes (beBytes32 3) = 3 from by decide,
    show setBytes (beBytes32 4) = 4 from by decide,
    show setBytes (beBytes32 6) = 6 from by decide,
    show setBytes (beBytes32 5) = 5 from by decide] at q1
  rw [show setBytes (beBytes32 7) = 7 from by decide,
    show setBytes (beBytes32 8) = 8 from by decide,
    show setBytes (beBytes32 10) = 10 from by decide,
    show setBytes (beBytes32 9) = 9 from by decide] at q2
  rw [show setBytes (beBytes32 11) = 11 from by decide,
    show setBytes (beBytes32 12) = 12 from by decide,
    show setBytes (beBytes32 14) = 14 from by decide,
    show setBytes (beBytes32 13) = 13 from by decide] at q3
  rw [show setBytes (beBytes32 15) = 15 from by decide,
    show setBytes (beBytes32 16) = 16 from by decide] at pk
  unfold ParseVerifyingKey
  rw [p1]
  simp only [q1, q2, q3, show (((0 : Int)) + 1).toNat = 1 from rfl, parseKPoints, pk]

end PrivacyPrecompiles
